import Mathlib

/-!
Verification of the PySEBAL CSV batch-driver layer.

Shallow embedding of:
  * `SEBAL/Run_CSV.py`   — `CSVInputHandler.get_value`, the mock workbook
    adapter classes, `SEBALcode_CSV_wrapper`, `run_timeseries_CSV`;
  * `run_timeseries.py`  — `validate_csv_input`, `run_timeseries_processing`,
    `main` (exit-code behaviour);
  * `SEBAL/pysebal_csv.py` — the per-field constant-vs-map coercion of
    `SEBALcode_CSV` (shown on the `Temp_inst` field).

Cell values are modelled by `PyVal`: pandas parses a CSV cell into a number,
a string, or NaN (empty cell).  The external model `SEBALcode` is an opaque
parameter `model : Int → Except String Unit` (its argument is the display
row; `.error msg` models a raised exception whose `str` is `msg`).
-/

/-- A scalar value held in a pandas cell: a parsed number, a string, or NaN
(what pandas stores for an empty cell). -/
inductive PyVal where
  | vnum (n : Int)
  | vstr (s : String)
  | vnan
deriving DecidableEq, Repr

/-- A loaded pandas DataFrame: column names in order, and the data rows,
each row positionally aligned with `columns`. -/
structure DataFrame where
  columns : List String
  rows : List (List PyVal)
deriving DecidableEq, Repr

/-- Index of the first column with the given name (pandas label lookup). -/
def DataFrame.colIdx (df : DataFrame) (name : String) : Option Nat :=
  df.columns.findIdx? (fun c => c = name)

/-- Raw cell fetch `df.iloc[r][name]` for a 0-based row `r` (no NaN
normalization). -/
def DataFrame.cell (df : DataFrame) (r : Nat) (name : String) : Option PyVal :=
  match df.colIdx name with
  | some j => (df.rows.get? r).bind (fun row => row.get? j)
  | none => none

/-- Association lookup used to model the Python dict literals. -/
def assocLookup : List (Char × String) → Char → Option String
  | [], _ => none
  | (c, s) :: rest, l => if l = c then some s else assocLookup rest l

/-- `col_mapping` dict of `CSVInputHandler.get_value` (Run_CSV.py 55-72). -/
def generalColMapping : List (Char × String) :=
  [('A', "Date_Acquired"),
   ('B', "input_folder"),
   ('C', "output_folder"),
   ('D', "Image_Type"),
   ('E', "DEM_fileName"),
   ('F', "Name_Landsat_Image"),
   ('G', "Landsat_nr"),
   ('H', "Thermal_Bands"),
   ('I', "tcoldmin"),
   ('J', "tcoldmax"),
   ('K', "ndvihot_low"),
   ('L', "ndvihot_high"),
   ('M', "ndvicold_low"),
   ('N', "ndvicold_high"),
   ('O', "Hot_Pixel_Constant"),
   ('P', "Cold_Pixel_Constant")]

/-- `meteo_mapping` dict of `CSVInputHandler.get_value` (Run_CSV.py 76-91). -/
def meteoColMapping : List (Char × String) :=
  [('A', "Date_Acquired"),
   ('B', "Temp_inst"),
   ('C', "Temp_24"),
   ('D', "RH_inst"),
   ('E', "RH_24"),
   ('F', "zx"),
   ('G', "Wind_inst"),
   ('H', "Wind_24"),
   ('I', "Method_Radiation_24"),
   ('J', "Rs_24"),
   ('K', "Transm_24"),
   ('L', "Method_Radiation_inst"),
   ('M', "Rs_in_inst"),
   ('N', "Transm_inst")]

/-- Effective alias table for a sheet: for `Meteo_Input` the meteo dict is
`update`d over the general one (so its keys shadow, and keys present only in
the general dict remain); every other sheet sees the general dict. -/
def colMappingFor (sheet_name : String) (letter : Char) : Option String :=
  if sheet_name = "Meteo_Input" then
    match assocLookup meteoColMapping letter with
    | some name => some name
    | none => assocLookup generalColMapping letter
  else assocLookup generalColMapping letter

/-- Python list indexing `columns[idx]` with negative-index wrapping.
An index below `-len` raises IndexError in Python; that branch is
unreachable for letter aliases and is mapped to `none` here. -/
def pyIndex (cols : List String) (idx : Int) : Option String :=
  if 0 ≤ idx then cols.get? idx.toNat
  else if 0 ≤ idx + cols.length then cols.get? (idx + cols.length).toNat
  else none

/-- `CSVInputHandler.get_value(sheet_name, cell_ref, row_index)`
(Run_CSV.py 36-115).  `colLetter` is `cell_ref[0]`.  Returns the cell value,
or `none` where Python returns `None` (unmapped out-of-range positional
index, unknown column, out-of-range row, or a NaN cell). -/
def get_value (df : DataFrame) (sheet_name : String) (colLetter : Char)
    (row_index : Int) : Option PyVal :=
  let colName? : Option String :=
    match colMappingFor sheet_name colLetter with
    | some name => some name
    | none =>
      let col_index : Int := (colLetter.toUpper.toNat : Int) - 65
      if col_index < (df.columns.length : Int) then pyIndex df.columns col_index
      else none
  match colName? with
  | none => none
  | some col_name =>
    if df.columns.contains col_name then
      let row_idx := row_index - 2
      if 0 ≤ row_idx ∧ row_idx < (df.rows.length : Int) then
        match df.cell row_idx.toNat col_name with
        | some v => if v = PyVal.vnan then none else some v
        | none => none
      else none
    else none

/-- Direct named-field access with the display-row conversion and
absent-normalization of the spec (§4.1): field `name` of the data row at
0-based index `rowIdx`, NaN and out-of-range normalized to `none`.  Stated
from the spec to compare with the alias-based `get_value`. -/
def namedFieldValue (df : DataFrame) (name : String) (rowIdx : Int) : Option PyVal :=
  if df.columns.contains name then
    if 0 ≤ rowIdx ∧ rowIdx < (df.rows.length : Int) then
      match df.cell rowIdx.toNat name with
      | some v => if v = PyVal.vnan then none else some v
      | none => none
    else none
  else none

/-- One entry of the `results` list built by `run_timeseries_processing`
(run_timeseries.py 113-136). -/
structure RunOutcome where
  run_number : Int
  date : PyVal
  image : PyVal
  output_folder : PyVal
  status : String
  error : Option String
deriving DecidableEq, Repr

/-- Aggregate state printed at the end of `run_timeseries_processing`. -/
structure Report where
  successful_runs : Nat
  failed_runs : Nat
  results : List RunOutcome
deriving DecidableEq, Repr

/-- Observable result of `run_timeseries_processing`:
`loadFailed` / `validationFailed` model the early `return False` after
`validate_csv_input` fails (the latter carries the missing-column list the
error message names); `crashed` models an uncaught exception escaping the
function; `completed` carries the report, the returned Python value being
`0 < report.successful_runs`. -/
inductive DriverResult where
  | loadFailed
  | validationFailed (missing : List String)
  | crashed (msg : String)
  | completed (report : Report)
deriving DecidableEq, Repr

/-- `required_columns` of `validate_csv_input` (run_timeseries.py 29-32). -/
def required_columns : List String :=
  ["input_folder", "output_folder", "Image_Type", "DEM_fileName",
   "Name_Landsat_Image", "Date_Acquired"]

/-- `missing_columns` computed by `validate_csv_input` (run_timeseries.py 36). -/
def missingColumns (df : DataFrame) : List String :=
  required_columns.filter (fun col => ¬ df.columns.contains col)

/-- `df.iloc[i]` for an integer `i`: Python wraps negative indices and
raises IndexError (here `none`) when out of range. -/
def DataFrame.iloc (df : DataFrame) (i : Int) : Option (List PyVal) :=
  let n : Int := df.rows.length
  let j := if i < 0 then i + n else i
  if 0 ≤ j ∧ j < n then df.rows.get? j.toNat else none

/-- `row_data.get(key, default)` on the pandas row Series
(run_timeseries.py 95-97). -/
def seriesGet (df : DataFrame) (row : List PyVal) (key : String) (dflt : PyVal) : PyVal :=
  match df.colIdx key with
  | some j => (row.get? j).getD PyVal.vnan
  | none => dflt

/-- `range(a, b)` over Python integers, as the ascending list a, a+1, ..., b-1. -/
def intRange (a b : Int) : List Int :=
  (List.range (b - a).toNat).map (fun (k : Nat) => a + (k : Int))

/-- Mutable state of the per-row loop of `run_timeseries_processing`
(run_timeseries.py 82-136): the counters, the `results` list, the function
locals `date_acquired` / `image_name` / `output_folder` that persist across
iterations (consulted by the `in locals()` guards of the except branch), and
a ghost trace of the display rows at which `SEBALcode` was invoked. -/
structure LoopState where
  successful_runs : Nat
  failed_runs : Nat
  results : List RunOutcome
  localDate : Option PyVal
  localImage : Option PyVal
  localOutput : Option PyVal
  invoked : List Int
deriving DecidableEq, Repr

/-- Initial loop state (run_timeseries.py 83-85). -/
def initLoopState : LoopState :=
  { successful_runs := 0, failed_runs := 0, results := [],
    localDate := none, localImage := none, localOutput := none, invoked := [] }

/-- Body of the per-row loop of `run_timeseries_processing` for 0-based
index `i` (run_timeseries.py 88-136); `row_number = i + 1` and
`excel_row = i + 2` are inlined.  Reading the row, then the model call, run
inside `try`; any exception lands in the except branch, which appends a
failed outcome built from the still-visible locals and continues. -/
def runRow (model : Int → Except String Unit) (df : DataFrame)
    (st : LoopState) (i : Int) : LoopState :=
  match df.iloc i with
  | none =>
    { st with
      failed_runs := st.failed_runs + 1,
      results := st.results ++
        [{ run_number := i + 1,
           date := st.localDate.getD (PyVal.vstr "Unknown"),
           image := st.localImage.getD (PyVal.vstr "Unknown"),
           output_folder := st.localOutput.getD (PyVal.vstr "Unknown"),
           status := "Failed",
           error := some "single positional indexer is out-of-bounds" }] }
  | some row =>
    match model (i + 2) with
    | Except.ok _ =>
      { successful_runs := st.successful_runs + 1,
        failed_runs := st.failed_runs,
        results := st.results ++
          [{ run_number := i + 1,
             date := seriesGet df row "Date_Acquired" (PyVal.vstr "Unknown"),
             image := seriesGet df row "Name_Landsat_Image" (PyVal.vstr "Unknown"),
             output_folder := seriesGet df row "output_folder" (PyVal.vstr "Unknown"),
             status := "Success", error := none }],
        localDate := some (seriesGet df row "Date_Acquired" (PyVal.vstr "Unknown")),
        localImage := some (seriesGet df row "Name_Landsat_Image" (PyVal.vstr "Unknown")),
        localOutput := some (seriesGet df row "output_folder" (PyVal.vstr "Unknown")),
        invoked := st.invoked ++ [i + 2] }
    | Except.error msg =>
      { successful_runs := st.successful_runs,
        failed_runs := st.failed_runs + 1,
        results := st.results ++
          [{ run_number := i + 1,
             date := seriesGet df row "Date_Acquired" (PyVal.vstr "Unknown"),
             image := seriesGet df row "Name_Landsat_Image" (PyVal.vstr "Unknown"),
             output_folder := seriesGet df row "output_folder" (PyVal.vstr "Unknown"),
             status := "Failed", error := some msg }],
        localDate := some (seriesGet df row "Date_Acquired" (PyVal.vstr "Unknown")),
        localImage := some (seriesGet df row "Name_Landsat_Image" (PyVal.vstr "Unknown")),
        localOutput := some (seriesGet df row "output_folder" (PyVal.vstr "Unknown")),
        invoked := st.invoked ++ [i + 2] }

/-- The whole per-row loop, folded left over the iteration indices. -/
def runLoop (model : Int → Except String Unit) (df : DataFrame)
    (st : LoopState) (idxs : List Int) : LoopState :=
  idxs.foldl (runRow model df) st

/-- `run_timeseries_processing(csv_file, start_row, end_row)`
(run_timeseries.py 49-158).  `csv` is `none` when reading the file raised.
The summary line `successful/(successful + failed)*100` raises
ZeroDivisionError when no run was attempted, which escapes the function;
that is the `crashed` result. -/
def run_timeseries_processing (model : Int → Except String Unit)
    (csv : Option DataFrame) (start_row : Int) (end_row : Option Int) :
    DriverResult :=
  match csv with
  | none => DriverResult.loadFailed
  | some df =>
    if missingColumns df ≠ [] then DriverResult.validationFailed (missingColumns df)
    else
      let total_rows : Int := df.rows.length
      let end_row' : Int :=
        match end_row with
        | none => total_rows
        | some e => min e total_rows
      let st := runLoop model df initLoopState (intRange (start_row - 1) end_row')
      if st.successful_runs + st.failed_runs = 0 then
        DriverResult.crashed "ZeroDivisionError: division by zero"
      else
        DriverResult.completed
          { successful_runs := st.successful_runs, failed_runs := st.failed_runs,
            results := st.results }

/-- Ghost trace of the display rows passed to `pysebal_py3.SEBALcode` by
`run_timeseries_processing` (run_timeseries.py line 108: `excel_row = i + 2`). -/
def run_timeseries_invocations (model : Int → Except String Unit)
    (csv : Option DataFrame) (start_row : Int) (end_row : Option Int) :
    List Int :=
  match csv with
  | none => []
  | some df =>
    if missingColumns df ≠ [] then []
    else
      let total_rows : Int := df.rows.length
      let end_row' : Int :=
        match end_row with
        | none => total_rows
        | some e => min e total_rows
      (runLoop model df initLoopState (intRange (start_row - 1) end_row')).invoked

/-- Exit code of `main` (run_timeseries.py 160-215): 1 when the file is
missing; otherwise runs the batch — an uncaught exception makes the
interpreter exit nonzero (modelled 1); a `False` return exits 1; a `True`
return (at least one successful run) exits 0. -/
def cliExitCode (model : Int → Except String Unit) (fileExists : Bool)
    (csv : Option DataFrame) (start_row : Int) (end_row : Option Int) : Nat :=
  if ¬ fileExists then 1
  else
    match run_timeseries_processing model csv start_row end_row with
    | DriverResult.loadFailed => 1
    | DriverResult.validationFailed _ => 1
    | DriverResult.crashed _ => 1
    | DriverResult.completed report => if 0 < report.successful_runs then 0 else 1

/-- `MockCell` (Run_CSV.py 143-162): sheet name, the column letter of the
cell reference, and `row_index`, which `__init__` sets to 2.  The `_value`
cache is omitted: caching a pure lookup is observationally identity. -/
structure MockCell where
  sheet_name : String
  cell_letter : Char
  row_index : Int
deriving DecidableEq, Repr

/-- `MockWorksheet` (Run_CSV.py 133-141).  `row_index` is the attribute the
wrapper later assigns on the worksheet object (absent at construction). -/
structure MockWorksheet where
  sheet_name : String
  row_index : Option Int
deriving DecidableEq, Repr

/-- `MockWorksheet.__getitem__` (Run_CSV.py 140-141): builds a fresh
`MockCell`, whose `__init__` sets `row_index = 2`; the worksheet's own
`row_index` attribute is not consulted. -/
def MockWorksheet.getItem (ws : MockWorksheet) (cellLetter : Char) : MockCell :=
  { sheet_name := ws.sheet_name, cell_letter := cellLetter, row_index := 2 }

/-- `MockCell.value` (Run_CSV.py 157-162): resolves through
`CSVInputHandler.get_value` at the cell's own `row_index`. -/
def MockCell.value (df : DataFrame) (c : MockCell) : Option PyVal :=
  get_value df c.sheet_name c.cell_letter c.row_index

/-- A worksheet as `SEBALcode_CSV_wrapper` leaves it for the run addressing
0-based `row_number`: lines 196-198 assign `sheet.row_index = row_number + 1`
on the worksheet object. -/
def wrapperSheet (sheet_name : String) (row_number : Int) : MockWorksheet :=
  { sheet_name := sheet_name, row_index := some (row_number + 1) }

/-- Value the external model observes when it accesses cell
`sheet[cellLetter..].value` during the wrapper-driven run for 0-based
`row_number`. -/
def wrapperCellValue (df : DataFrame) (row_number : Int) (sheet_name : String)
    (cellLetter : Char) : Option PyVal :=
  MockCell.value df (MockWorksheet.getItem (wrapperSheet sheet_name row_number) cellLetter)

/-- Display row `SEBALcode_CSV_wrapper` hands to `pysebal_py3.SEBALcode`
(Run_CSV.py line 202: `row_number + 1`). -/
def wrapperDisplayRow (row_number : Int) : Int := row_number + 1

/-- Aggregate state of `run_timeseries_CSV` (Run_CSV.py 240-267), with a
ghost trace of the display rows passed to `SEBALcode`. -/
structure CSVBatchState where
  successful_runs : Nat
  failed_runs : Nat
  invoked : List Int
deriving DecidableEq, Repr

/-- `run_timeseries_CSV(csv_file_path, start_row, end_row)`
(Run_CSV.py 209-274): clamps `end_row`, iterates
`range(start_row - 1, end_row)`, calls `SEBALcode_CSV_wrapper(row_num, ...)`
— which invokes `SEBALcode(row_num + 1, ...)` — and catches any exception,
counting it as a failed run. -/
def run_timeseries_CSV (model : Int → Except String Unit) (df : DataFrame)
    (start_row : Int) (end_row : Option Int) : CSVBatchState :=
  let total_rows : Int := df.rows.length
  let end_row' : Int := min (end_row.getD total_rows) total_rows
  (intRange (start_row - 1) end_row').foldl
    (fun st row_num =>
      match model (wrapperDisplayRow row_num) with
      | Except.ok _ =>
        { st with successful_runs := st.successful_runs + 1,
                  invoked := st.invoked ++ [wrapperDisplayRow row_num] }
      | Except.error _ =>
        { st with failed_runs := st.failed_runs + 1,
                  invoked := st.invoked ++ [wrapperDisplayRow row_num] })
    { successful_runs := 0, failed_runs := 0, invoked := [] }

/-- A Python attribute value for the monkey-patching model: `None` or a
function object.  -/
inductive PyAttr where
  | pyNone
  | pyFunc (tag : String)
deriving DecidableEq, Repr

/-- Python truthiness of an attribute value: `None` is falsy, a function
object is truthy. -/
def PyAttr.truthy : PyAttr → Bool
  | PyAttr.pyNone => false
  | PyAttr.pyFunc _ => true

/-- The `mock_load_workbook` closure installed by the wrapper
(Run_CSV.py 188-193). -/
def mock_load_workbook : PyAttr := PyAttr.pyFunc "mock_load_workbook"

/-- Value of `pysebal_py3.load_workbook` after `SEBALcode_CSV_wrapper`
returns, as a function of its pre-call value (`none` = attribute absent)
and of the model call's outcome (Run_CSV.py 183-207).  The wrapper snapshots
the attribute into `original_load_workbook` (initialized to Python `None`),
installs the mock, and in the `finally` block — run whether the call
returned or raised — restores only under `if original_load_workbook:`,
i.e. only when the snapshot is truthy. -/
def load_workbook_after_wrapper (pre : Option PyAttr)
    (callResult : Except String Unit) : Option PyAttr :=
  let original_load_workbook : PyAttr :=
    match pre with
    | some v => v
    | none => PyAttr.pyNone
  let _ := callResult
  if original_load_workbook.truthy then some original_load_workbook
  else some mock_load_workbook

/-- Association lookup over string keys, modelling `dict.get` on the
`row.to_dict()` record of `pysebal_csv.py`. -/
def assocLookupVal : List (String × PyVal) → String → Option PyVal
  | [], _ => none
  | (k, v) :: rest, key => if key = k then some v else assocLookupVal rest key

/-- `record.get(key, default)`. -/
def dictGet (record : List (String × PyVal)) (key : String) (dflt : PyVal) : PyVal :=
  (assocLookupVal record key).getD dflt

/-- Python `float(x)` on a cell value: numbers pass through, NaN passes
through (`float(nan)` succeeds and stays NaN), a string parses as a numeric
literal or raises ValueError (`none`). -/
def pyFloat : PyVal → Option PyVal
  | PyVal.vnum n => some (PyVal.vnum n)
  | PyVal.vnan => some PyVal.vnan
  | PyVal.vstr s => (s.toInt?).map PyVal.vnum

/-- Python `str(x)` on a cell value. -/
def pyStr : PyVal → String
  | PyVal.vnum n => toString n
  | PyVal.vstr s => s
  | PyVal.vnan => "nan"

/-- The tagged union the spec prescribes for a meteorological field
(§9: `Constant(float) | MapReference(string) | Absent`). -/
inductive MeteoField where
  | constant (v : PyVal)
  | mapRef (s : String)
  | absent
deriving DecidableEq, Repr

/-- The `Temp_inst` coercion of `SEBALcode_CSV` (pysebal_csv.py 117-125):
`float(record.get('Temp_inst', 25.0))` marks kind-of-data 0 (constant) on
success; on ValueError the except branch marks kind-of-data 1 (map name)
with `str(record.get('Temp_inst', ''))`.  No branch produces an absent
marker. -/
def extract_Temp_inst (record : List (String × PyVal)) : MeteoField :=
  match pyFloat (dictGet record "Temp_inst" (PyVal.vnum 25)) with
  | some v => MeteoField.constant v
  | none => MeteoField.mapRef (pyStr (dictGet record "Temp_inst" (PyVal.vstr "")))

/-- Column header of the sample tables, in CSV order. -/
def sampleColumns : List String :=
  ["Date_Acquired", "input_folder", "output_folder", "Image_Type",
   "DEM_fileName", "Name_Landsat_Image"]

/-- One sample data row carrying the required fields. -/
def sampleRow (date folder out img : String) : List PyVal :=
  [PyVal.vstr date, PyVal.vstr folder, PyVal.vstr out, PyVal.vnum 1,
   PyVal.vstr "dem.tif", PyVal.vstr img]

/-- A 5-row run table. -/
def df5 : DataFrame :=
  { columns := sampleColumns,
    rows := [sampleRow "2025-01-01" "/in1" "/out1" "img1",
             sampleRow "2025-02-01" "/in2" "/out2" "img2",
             sampleRow "2025-03-01" "/in3" "/out3" "img3",
             sampleRow "2025-04-01" "/in4" "/out4" "img4",
             sampleRow "2025-05-01" "/in5" "/out5" "img5"] }

/-- A 2-row run table whose rows differ in `input_folder`. -/
def df2 : DataFrame :=
  { columns := sampleColumns,
    rows := [sampleRow "2025-01-01" "/a" "/outa" "imga",
             sampleRow "2025-02-01" "/b" "/outb" "imgb"] }

/-- A 1-row run table. -/
def df1 : DataFrame :=
  { columns := sampleColumns,
    rows := [sampleRow "2025-01-01" "/in1" "/out1" "img1"] }

/-- The table of the spec's alias example: first data row has
`input_folder = "/data/in"`. -/
def dfSpecExample : DataFrame :=
  { columns := sampleColumns,
    rows := [sampleRow "2025-01-01" "/data/in" "/data/out" "img1"] }

/-- A table missing the required `output_folder` column. -/
def dfMissingOutput : DataFrame :=
  { columns := ["Date_Acquired", "input_folder", "Image_Type",
                "DEM_fileName", "Name_Landsat_Image"],
    rows := [[PyVal.vstr "2025-01-01", PyVal.vstr "/in1", PyVal.vnum 1,
              PyVal.vstr "dem.tif", PyVal.vstr "img1"]] }

/-- A table with 26 columns (none of them alias-mapped names beyond the
generated ones) and no data rows, to exercise the positional fallback. -/
def df26 : DataFrame :=
  { columns := (List.range 26).map (fun i => "col" ++ toString i),
    rows := [] }

/-- External model that always returns normally. -/
def modelOk : Int → Except String Unit := fun _ => Except.ok ()

/-- External model that always raises. -/
def modelFail : Int → Except String Unit := fun _ => Except.error "boom"

/-- External model that raises exactly at display row 4 (internal index 2). -/
def modelFailAt4 : Int → Except String Unit :=
  fun r => if r = 4 then Except.error "boom" else Except.ok ()

/-- The outcome `run_timeseries_processing` appends for 0-based index `i`,
when the row read succeeds (the `none` branch is junk, unreachable for
in-range indices starting from a fresh local state). -/
def outcomeAt (model : Int → Except String Unit) (df : DataFrame) (i : Int) :
    RunOutcome :=
  match df.iloc i with
  | none =>
    { run_number := i + 1, date := PyVal.vstr "Unknown",
      image := PyVal.vstr "Unknown", output_folder := PyVal.vstr "Unknown",
      status := "Failed",
      error := some "single positional indexer is out-of-bounds" }
  | some row =>
    match model (i + 2) with
    | Except.ok _ =>
      { run_number := i + 1,
        date := seriesGet df row "Date_Acquired" (PyVal.vstr "Unknown"),
        image := seriesGet df row "Name_Landsat_Image" (PyVal.vstr "Unknown"),
        output_folder := seriesGet df row "output_folder" (PyVal.vstr "Unknown"),
        status := "Success", error := none }
    | Except.error msg =>
      { run_number := i + 1,
        date := seriesGet df row "Date_Acquired" (PyVal.vstr "Unknown"),
        image := seriesGet df row "Name_Landsat_Image" (PyVal.vstr "Unknown"),
        output_folder := seriesGet df row "output_folder" (PyVal.vstr "Unknown"),
        status := "Failed", error := some msg }

/-- Membership in `intRange` is the interval condition. -/
theorem mem_intRange {a b i : Int} : i ∈ intRange a b ↔ a ≤ i ∧ i < b := by
  unfold intRange
  constructor
  · intro h
    rcases List.mem_map.mp h with ⟨k, hk, he⟩
    rw [List.mem_range] at hk
    have hbe : a + (k : Int) = i := he
    omega
  · intro h
    refine List.mem_map.mpr ⟨(i - a).toNat, ?_, ?_⟩
    · rw [List.mem_range]; omega
    · show a + ((i - a).toNat : Int) = i
      omega

/-- Length of `intRange`. -/
theorem intRange_length (a b : Int) : (intRange a b).length = (b - a).toNat := by
  unfold intRange
  rw [List.length_map, List.length_range]

/-- Shifting an `intRange` by mapping `+ 1` over it. -/
theorem intRange_map_add_one (a b : Int) :
    (intRange a b).map (fun i => i + 1) = intRange (a + 1) (b + 1) := by
  unfold intRange
  rw [List.map_map]
  have he : (b + 1 - (a + 1)).toNat = (b - a).toNat := by omega
  rw [he]
  apply List.map_congr_left
  intro k _
  simp only [Function.comp]
  omega

/-- An in-range `iloc` access succeeds and returns the indexed row. -/
theorem DataFrame.iloc_inRange (df : DataFrame) (i : Int)
    (h0 : 0 ≤ i) (h1 : i < (df.rows.length : Int)) :
    ∃ row, df.iloc i = some row := by
  unfold DataFrame.iloc
  have hneg : ¬ i < 0 := by omega
  simp only [hneg, if_false]
  rw [if_pos ⟨h0, h1⟩]
  have hlt : i.toNat < df.rows.length := by omega
  rcases List.get?_eq_get hlt with h
  exact ⟨_, h⟩

/-- The appended outcome always carries `run_number = i + 1`. -/
theorem outcomeAt_run_number (model : Int → Except String Unit)
    (df : DataFrame) (i : Int) : (outcomeAt model df i).run_number = i + 1 := by
  unfold outcomeAt
  cases df.iloc i with
  | none => rfl
  | some row => cases model (i + 2) with
    | ok _ => rfl
    | error msg => rfl

/-- When the model raises at an in-range index, the appended outcome is a
failure carrying the captured error text. -/
theorem outcomeAt_error (model : Int → Except String Unit) (df : DataFrame)
    (i : Int) (msg : String) (h0 : 0 ≤ i) (h1 : i < (df.rows.length : Int))
    (hm : model (i + 2) = Except.error msg) :
    (outcomeAt model df i).status = "Failed" ∧
    (outcomeAt model df i).error = some msg := by
  obtain ⟨row, hrow⟩ := df.iloc_inRange i h0 h1
  unfold outcomeAt
  rw [hrow, hm]
  exact ⟨rfl, rfl⟩

/-- One in-range loop step appends exactly the `outcomeAt` entry. -/
theorem runRow_results (model : Int → Except String Unit) (df : DataFrame)
    (st : LoopState) (i : Int) (h0 : 0 ≤ i) (h1 : i < (df.rows.length : Int)) :
    (runRow model df st i).results = st.results ++ [outcomeAt model df i] := by
  obtain ⟨row, hrow⟩ := df.iloc_inRange i h0 h1
  simp only [runRow, outcomeAt, hrow]
  cases model (i + 2) with
  | ok _ => rfl
  | error msg => rfl

/-- One in-range loop step invokes the model exactly once, at display row
`i + 2`. -/
theorem runRow_invoked (model : Int → Except String Unit) (df : DataFrame)
    (st : LoopState) (i : Int) (h0 : 0 ≤ i) (h1 : i < (df.rows.length : Int)) :
    (runRow model df st i).invoked = st.invoked ++ [i + 2] := by
  obtain ⟨row, hrow⟩ := df.iloc_inRange i h0 h1
  simp only [runRow, hrow]
  cases model (i + 2) with
  | ok _ => rfl
  | error msg => rfl

/-- Every loop step counts exactly one attempted run. -/
theorem runRow_total (model : Int → Except String Unit) (df : DataFrame)
    (st : LoopState) (i : Int) :
    (runRow model df st i).successful_runs + (runRow model df st i).failed_runs
      = st.successful_runs + st.failed_runs + 1 := by
  cases hrow : df.iloc i with
  | none => simp only [runRow, hrow]; omega
  | some row =>
    simp only [runRow, hrow]
    cases model (i + 2) with
    | ok _ => dsimp only; omega
    | error msg => dsimp only; omega

/-- The loop over in-range indices appends one outcome per index, in order. -/
theorem runLoop_results (model : Int → Except String Unit) (df : DataFrame) :
    ∀ (idxs : List Int) (st : LoopState),
    (∀ i ∈ idxs, 0 ≤ i ∧ i < (df.rows.length : Int)) →
    (runLoop model df st idxs).results
      = st.results ++ idxs.map (outcomeAt model df) := by
  intro idxs
  induction idxs with
  | nil => intro st _; simp [runLoop]
  | cons a l ih =>
    intro st h
    have ha := h a (by simp)
    have hl : ∀ i ∈ l, 0 ≤ i ∧ i < (df.rows.length : Int) := by
      intro i hi; exact h i (by simp [hi])
    have hstep : runLoop model df st (a :: l)
        = runLoop model df (runRow model df st a) l := rfl
    rw [hstep, ih (runRow model df st a) hl,
      runRow_results model df st a ha.1 ha.2]
    simp

/-- The loop over in-range indices invokes the model once per index, at
display row `index + 2`, in ascending order. -/
theorem runLoop_invoked (model : Int → Except String Unit) (df : DataFrame) :
    ∀ (idxs : List Int) (st : LoopState),
    (∀ i ∈ idxs, 0 ≤ i ∧ i < (df.rows.length : Int)) →
    (runLoop model df st idxs).invoked
      = st.invoked ++ idxs.map (fun i => i + 2) := by
  intro idxs
  induction idxs with
  | nil => intro st _; simp [runLoop]
  | cons a l ih =>
    intro st h
    have ha := h a (by simp)
    have hl : ∀ i ∈ l, 0 ≤ i ∧ i < (df.rows.length : Int) := by
      intro i hi; exact h i (by simp [hi])
    have hstep : runLoop model df st (a :: l)
        = runLoop model df (runRow model df st a) l := rfl
    rw [hstep, ih (runRow model df st a) hl,
      runRow_invoked model df st a ha.1 ha.2]
    simp

/-- The loop counts exactly one attempted run per iterated index. -/
theorem runLoop_total (model : Int → Except String Unit) (df : DataFrame) :
    ∀ (idxs : List Int) (st : LoopState),
    (runLoop model df st idxs).successful_runs
      + (runLoop model df st idxs).failed_runs
      = st.successful_runs + st.failed_runs + idxs.length := by
  intro idxs
  induction idxs with
  | nil => intro st; simp [runLoop]
  | cons a l ih =>
    intro st
    have hstep : runLoop model df st (a :: l)
        = runLoop model df (runRow model df st a) l := rfl
    rw [hstep, ih (runRow model df st a), runRow_total model df st a]
    simp only [List.length_cons]
    omega

/-- With a valid table, `run_timeseries_processing` reduces to the loop
followed by the summary. -/
theorem driver_eq_of_valid (model : Int → Except String Unit) (df : DataFrame)
    (start_row endv : Int) (hcols : missingColumns df = [])
    (hattempt :
      (runLoop model df initLoopState
        (intRange (start_row - 1) (min endv (df.rows.length : Int)))).successful_runs
      + (runLoop model df initLoopState
        (intRange (start_row - 1) (min endv (df.rows.length : Int)))).failed_runs ≠ 0) :
    run_timeseries_processing model (some df) start_row (some endv)
      = DriverResult.completed
        { successful_runs :=
            (runLoop model df initLoopState
              (intRange (start_row - 1) (min endv (df.rows.length : Int)))).successful_runs,
          failed_runs :=
            (runLoop model df initLoopState
              (intRange (start_row - 1) (min endv (df.rows.length : Int)))).failed_runs,
          results :=
            (runLoop model df initLoopState
              (intRange (start_row - 1) (min endv (df.rows.length : Int)))).results } := by
  simp only [run_timeseries_processing]
  rw [if_neg (by simp [hcols])]
  simp only [if_neg hattempt]

/-- With a valid table, the invocation trace is the loop's trace. -/
theorem invocations_eq_of_valid (model : Int → Except String Unit)
    (df : DataFrame) (start_row endv : Int) (hcols : missingColumns df = []) :
    run_timeseries_invocations model (some df) start_row (some endv)
      = (runLoop model df initLoopState
          (intRange (start_row - 1) (min endv (df.rows.length : Int)))).invoked := by
  simp only [run_timeseries_invocations]
  rw [if_neg (by simp [hcols])]

/-- C1: for every valid run table and requested range with at least one
in-range index, the batch driver completes (no per-run error escapes to the
caller), it attempts every index in the range in ascending order (one
outcome per 1-based index from `start` to `min end n`), and whenever the
model raises at an index, a failure outcome carrying the captured error
description is recorded for that index. -/
theorem C1_per_run_errors_caught_and_batch_continues
    (model : Int → Except String Unit) (df : DataFrame) (start_row endv : Int)
    (hcols : missingColumns df = []) (hstart : 1 ≤ start_row)
    (hne : start_row ≤ min endv (df.rows.length : Int)) :
    ∃ rep, run_timeseries_processing model (some df) start_row (some endv)
        = DriverResult.completed rep
      ∧ rep.results.map RunOutcome.run_number
          = intRange start_row (min endv (df.rows.length : Int) + 1)
      ∧ ∀ i msg, start_row - 1 ≤ i → i < min endv (df.rows.length : Int) →
          model (i + 2) = Except.error msg →
          ∃ o, o ∈ rep.results ∧ o.run_number = i + 1
            ∧ o.status = "Failed" ∧ o.error = some msg := by
  have hmr := min_le_right endv (df.rows.length : Int)
  have hbounds : ∀ i ∈ intRange (start_row - 1) (min endv (df.rows.length : Int)),
      0 ≤ i ∧ i < (df.rows.length : Int) := by
    intro i hi
    rw [mem_intRange] at hi
    omega
  have htot := runLoop_total model df
    (intRange (start_row - 1) (min endv (df.rows.length : Int))) initLoopState
  have hlen := intRange_length (start_row - 1) (min endv (df.rows.length : Int))
  have hinit : initLoopState.successful_runs + initLoopState.failed_runs = 0 := rfl
  have hattempt :
      (runLoop model df initLoopState
        (intRange (start_row - 1) (min endv (df.rows.length : Int)))).successful_runs
      + (runLoop model df initLoopState
        (intRange (start_row - 1) (min endv (df.rows.length : Int)))).failed_runs ≠ 0 := by
    rw [htot, hlen]
    omega
  have hres := runLoop_results model df
    (intRange (start_row - 1) (min endv (df.rows.length : Int))) initLoopState hbounds
  have hres' : (runLoop model df initLoopState
      (intRange (start_row - 1) (min endv (df.rows.length : Int)))).results
      = (intRange (start_row - 1) (min endv (df.rows.length : Int))).map
          (outcomeAt model df) := by
    rw [hres]
    rfl
  refine ⟨_, driver_eq_of_valid model df start_row endv hcols hattempt, ?_, ?_⟩
  · show ((runLoop model df initLoopState
      (intRange (start_row - 1) (min endv (df.rows.length : Int)))).results).map
        RunOutcome.run_number = _
    rw [hres', List.map_map]
    have hf : (RunOutcome.run_number ∘ outcomeAt model df) = (fun i : Int => i + 1) := by
      funext i
      exact outcomeAt_run_number model df i
    rw [hf, intRange_map_add_one]
    have h1 : start_row - 1 + 1 = start_row := by omega
    rw [h1]
  · intro i msg h1 h2 hm
    have hmem : i ∈ intRange (start_row - 1) (min endv (df.rows.length : Int)) :=
      mem_intRange.mpr ⟨h1, h2⟩
    refine ⟨outcomeAt model df i, ?_, outcomeAt_run_number model df i, ?_, ?_⟩
    · show outcomeAt model df i ∈ (runLoop model df initLoopState
        (intRange (start_row - 1) (min endv (df.rows.length : Int)))).results
      rw [hres']
      exact List.mem_map_of_mem _ hmem
    · exact (outcomeAt_error model df i msg (by omega) (by omega) hm).1
    · exact (outcomeAt_error model df i msg (by omega) (by omega) hm).2

/-- Witness for C1 at a concrete input: the 5-row table, full range, model
raising exactly at display row 4 (1-based run 3). -/
theorem C1_witness :
    ∃ rep, run_timeseries_processing modelFailAt4 (some df5) 1 (some 5)
        = DriverResult.completed rep
      ∧ rep.results.map RunOutcome.run_number
          = intRange 1 (min 5 (df5.rows.length : Int) + 1)
      ∧ ∀ i msg, (1 : Int) - 1 ≤ i → i < min 5 (df5.rows.length : Int) →
          modelFailAt4 (i + 2) = Except.error msg →
          ∃ o, o ∈ rep.results ∧ o.run_number = i + 1
            ∧ o.status = "Failed" ∧ o.error = some msg :=
  C1_per_run_errors_caught_and_batch_continues modelFailAt4 df5 1 5
    (by decide) (by decide) (by decide)

/-- C2: when any required column is absent, the batch fails before the loop
with the missing-column list (which the printed error names), and the model
is never invoked. -/
theorem C2_schema_validation_blocks_all_runs
    (model : Int → Except String Unit) (df : DataFrame)
    (start_row : Int) (end_row : Option Int)
    (h : missingColumns df ≠ []) :
    run_timeseries_processing model (some df) start_row end_row
      = DriverResult.validationFailed (missingColumns df)
    ∧ run_timeseries_invocations model (some df) start_row end_row = [] := by
  constructor
  · simp only [run_timeseries_processing]
    rw [if_pos h]
  · simp only [run_timeseries_invocations]
    rw [if_pos h]

/-- Witness for C2 at a concrete input: a table lacking `output_folder`
fails naming exactly that column, with an empty invocation trace. -/
theorem C2_witness :
    run_timeseries_processing modelOk (some dfMissingOutput) 1 none
      = DriverResult.validationFailed ["output_folder"]
    ∧ run_timeseries_invocations modelOk (some dfMissingOutput) 1 none = [] := by
  have hm : missingColumns dfMissingOutput = ["output_folder"] := by decide
  have h := C2_schema_validation_blocks_all_runs modelOk dfMissingOutput 1 none
    (by decide)
  exact ⟨hm ▸ h.1, h.2⟩

/-- C3: the requested end is clamped to the table length, and the attempted
1-based indices (display rows invoked, shifted back by 1) are exactly
`start .. min end n`, in ascending order. -/
theorem C3_clamped_ascending_range
    (model : Int → Except String Unit) (df : DataFrame) (start_row endv : Int)
    (hcols : missingColumns df = []) (hstart : 1 ≤ start_row) :
    (run_timeseries_invocations model (some df) start_row (some endv)).map
        (fun r => r - 1)
      = intRange start_row (min endv (df.rows.length : Int) + 1) := by
  have hmr := min_le_right endv (df.rows.length : Int)
  have hbounds : ∀ i ∈ intRange (start_row - 1) (min endv (df.rows.length : Int)),
      0 ≤ i ∧ i < (df.rows.length : Int) := by
    intro i hi
    rw [mem_intRange] at hi
    omega
  rw [invocations_eq_of_valid model df start_row endv hcols]
  rw [runLoop_invoked model df
    (intRange (start_row - 1) (min endv (df.rows.length : Int))) initLoopState hbounds]
  have hinit : initLoopState.invoked = [] := rfl
  rw [hinit, List.nil_append, List.map_map]
  have hf : ((fun r : Int => r - 1) ∘ (fun i : Int => i + 2)) = (fun i : Int => i + 1) := by
    funext i
    show i + 2 - 1 = i + 1
    omega
  rw [hf, intRange_map_add_one]
  have h1 : start_row - 1 + 1 = start_row := by omega
  rw [h1]

/-- Witness for C3 at the spec's example: a 5-row table with
`start = 2, end = 10` clamps to 5 and attempts exactly the 4 indices
2, 3, 4, 5. -/
theorem C3_witness :
    (run_timeseries_invocations modelOk (some df5) 2 (some 10)).map
        (fun r => r - 1)
      = intRange 2 (min 10 (df5.rows.length : Int) + 1)
    ∧ intRange 2 (min 10 (df5.rows.length : Int) + 1) = [2, 3, 4, 5] :=
  ⟨C3_clamped_ascending_range modelOk df5 2 10 (by decide) (by decide),
   by decide⟩

/-- C4: on an empty requested range (start 4, end 2, on the 5-row table)
`run_timeseries_processing` does not produce an empty report — the success
rate computation `successful/(successful+failed)` divides zero by zero and
the ZeroDivisionError escapes.  Zero model invocations occur. -/
theorem C4_empty_range_raises_not_empty_report :
    run_timeseries_processing modelOk (some df5) 4 (some 2)
      = DriverResult.crashed "ZeroDivisionError: division by zero"
    ∧ run_timeseries_invocations modelOk (some df5) 4 (some 2) = [] := by
  constructor
  · decide
  · decide

/-- C5 counterexample: a batch that completes normally with its single run
failed exits with code 1, not 0, because `run_timeseries_processing` returns
`successful_runs > 0` and `main` exits 1 on `False`. -/
theorem C5_counterexample :
    run_timeseries_processing modelFail (some df1) 1 none
      = DriverResult.completed
          { successful_runs := 0, failed_runs := 1,
            results := [{ run_number := 1, date := PyVal.vstr "2025-01-01",
                          image := PyVal.vstr "img1",
                          output_folder := PyVal.vstr "/out1",
                          status := "Failed", error := some "boom" }] }
    ∧ cliExitCode modelFail true (some df1) 1 none = 1 := by
  refine ⟨by decide, by decide⟩

/-- C5 amended: the CLI exits 0 exactly when the file exists and the batch
completes normally with at least one successful run; it exits nonzero when
the file is missing, schema validation fails, every attempted run failed,
or no run was attempted (the summary crash). -/
theorem C5_amended_exit_code_iff (model : Int → Except String Unit)
    (fe : Bool) (csv : Option DataFrame) (start_row : Int)
    (end_row : Option Int) :
    cliExitCode model fe csv start_row end_row = 0 ↔
      (fe = true ∧ ∃ rep,
        run_timeseries_processing model csv start_row end_row
          = DriverResult.completed rep ∧ 0 < rep.successful_runs) := by
  unfold cliExitCode
  cases fe with
  | false => simp
  | true =>
    cases hd : run_timeseries_processing model csv start_row end_row with
    | loadFailed => simp [hd]
    | validationFailed m => simp [hd]
    | crashed m => simp [hd]
    | completed rep =>
      by_cases hr : 0 < rep.successful_runs
      · simp [hd, hr]
      · simp [hd, hr]

/-- Witness for C5's amended claim at a concrete input: a 1-row batch whose
run succeeds exits 0. -/
theorem C5_witness :
    cliExitCode modelOk true (some df1) 1 none = 0 :=
  (C5_amended_exit_code_iff modelOk true (some df1) 1 none).mpr
    ⟨rfl,
     ⟨{ successful_runs := 1, failed_runs := 0,
        results := [{ run_number := 1, date := PyVal.vstr "2025-01-01",
                      image := PyVal.vstr "img1",
                      output_folder := PyVal.vstr "/out1",
                      status := "Success", error := none }] },
      by decide, by decide⟩⟩

/-- C6: on a 2-row table (internal indices 0 and 1), `run_timeseries.py`
invokes the model at display rows 2 and 3 (index + 2), but the
`Run_CSV.run_timeseries_CSV` path hands `SEBALcode` rows 1 and 2
(index + 1): `run_timeseries_CSV` passes its 0-based `row_num` to
`SEBALcode_CSV_wrapper`, whose docstring expects a 1-based row and which
adds only 1. -/
theorem C6_displayRow_offsets_disagree :
    run_timeseries_invocations modelOk (some df2) 1 none = [2, 3]
    ∧ (run_timeseries_CSV modelOk df2 1 none).invoked = [1, 2]
    ∧ ([1, 2] : List Int) ≠ [2, 3] := by
  refine ⟨by decide, by decide, by decide⟩

/-- C9: during the wrapper-driven runs for internal indices 0 and 1 on a
2-row table, a cell access `General_Input!B` resolves to the FIRST data
row's value both times (MockCell pins `row_index = 2`; the `row_index` the
wrapper assigns on the worksheet is never read), although the second run's
own row holds a different value (visible at display row 3). -/
theorem C9_adapter_ignores_run_row :
    wrapperCellValue df2 0 "General_Input" 'B' = some (PyVal.vstr "/a")
    ∧ wrapperCellValue df2 1 "General_Input" 'B' = some (PyVal.vstr "/a")
    ∧ get_value df2 "General_Input" 'B' 3 = some (PyVal.vstr "/b") := by
  refine ⟨by decide, by decide, by decide⟩

/-- C10 counterexample: if `pysebal_py3.load_workbook` existed but was
bound to `None` before the wrapper ran, the `finally` block's
`if original_load_workbook:` skips the restore and the mock persists. -/
theorem C10_counterexample :
    load_workbook_after_wrapper (some PyAttr.pyNone) (Except.ok ())
      = some mock_load_workbook
    ∧ some mock_load_workbook ≠ some PyAttr.pyNone := by
  refine ⟨by decide, by decide⟩

/-- C10 amended: if the attribute existed with a truthy value (e.g. a
function object), it is restored after the wrapper, whether the model call
returned or raised. -/
theorem C10_truthy_attribute_restored (pre : PyAttr)
    (res : Except String Unit) (h : pre.truthy = true) :
    load_workbook_after_wrapper (some pre) res = some pre := by
  unfold load_workbook_after_wrapper
  simp [h]

/-- Witness for C10's amended claim: a function-valued attribute is truthy
and is restored both on normal return and on a raised model call. -/
theorem C10_witness :
    (PyAttr.pyFunc "load_workbook").truthy = true
    ∧ load_workbook_after_wrapper (some (PyAttr.pyFunc "load_workbook"))
        (Except.ok ()) = some (PyAttr.pyFunc "load_workbook")
    ∧ load_workbook_after_wrapper (some (PyAttr.pyFunc "load_workbook"))
        (Except.error "boom") = some (PyAttr.pyFunc "load_workbook") :=
  ⟨by decide,
   C10_truthy_attribute_restored (PyAttr.pyFunc "load_workbook")
     (Except.ok ()) (by decide),
   C10_truthy_attribute_restored (PyAttr.pyFunc "load_workbook")
     (Except.error "boom") (by decide)⟩

/-- C7: alias lookup is the fixed per-sheet table — `B` resolves to
`input_folder` under the general table and to `Temp_inst` under the
meteorological table, each equivalent to direct named-field access at
internal row `display_row - 2`; an alias outside the table (here `Z`,
position 25) falls back to positional column indexing, and a positional
index beyond the column count yields `none` rather than failing; on the
spec's example table, `B` at display row 2 returns `"/data/in"`. -/
theorem C7_alias_table_and_positional_fallback (df : DataFrame) (r : Int) :
    get_value df "General_Input" 'B' r = namedFieldValue df "input_folder" (r - 2)
    ∧ get_value df "Meteo_Input" 'B' r = namedFieldValue df "Temp_inst" (r - 2)
    ∧ (df.columns.length ≤ 25 → get_value df "General_Input" 'Z' r = none)
    ∧ (25 < df.columns.length → ∀ name, df.columns.get? 25 = some name →
        get_value df "General_Input" 'Z' r = namedFieldValue df name (r - 2))
    ∧ get_value dfSpecExample "General_Input" 'B' 2 = some (PyVal.vstr "/data/in") := by
  have hz : colMappingFor "General_Input" 'Z' = none := by decide
  have hci : ((Char.toUpper 'Z').toNat : Int) - 65 = 25 := by decide
  refine ⟨rfl, rfl, ?_, ?_, by decide⟩
  · intro h
    unfold get_value
    rw [hz]
    have hlt : ¬ (((Char.toUpper 'Z').toNat : Int) - 65 < (df.columns.length : Int)) := by
      rw [hci]
      exact_mod_cast fun hc => absurd h (by omega)
    rw [if_neg hlt]
  · intro h name hname
    unfold get_value
    rw [hz]
    have hlt : ((Char.toUpper 'Z').toNat : Int) - 65 < (df.columns.length : Int) := by
      rw [hci]
      exact_mod_cast h
    rw [if_pos hlt, hci]
    unfold pyIndex
    rw [if_pos (by norm_num : (0 : Int) ≤ 25)]
    have ht : ((25 : Int)).toNat = 25 := rfl
    rw [ht, hname]
    rfl

/-- Witness for C7 at concrete inputs: the general and meteorological `B`
aliases on the 2-row table; the out-of-range fallback on its 6 columns; the
in-range positional fallback on a 26-column table. -/
theorem C7_witness :
    get_value df2 "General_Input" 'B' 3 = namedFieldValue df2 "input_folder" (3 - 2)
    ∧ get_value df2 "Meteo_Input" 'B' 3 = namedFieldValue df2 "Temp_inst" (3 - 2)
    ∧ get_value df2 "General_Input" 'Z' 3 = none
    ∧ get_value df26 "General_Input" 'Z' 2 = namedFieldValue df26 "col25" (2 - 2) :=
  ⟨(C7_alias_table_and_positional_fallback df2 3).1,
   (C7_alias_table_and_positional_fallback df2 3).2.1,
   (C7_alias_table_and_positional_fallback df2 3).2.2.1 (by decide),
   (C7_alias_table_and_positional_fallback df26 2).2.2.2.1 (by decide) "col25" (by decide)⟩

/-- C8 counterexample: a record whose `Temp_inst` cell is NaN (an empty CSV
cell) is NOT normalized to an absent marker by `SEBALcode_CSV` — `float(nan)`
succeeds, so the field becomes the numeric constant NaN (kind-of-data 0). -/
theorem C8_counterexample :
    extract_Temp_inst [("Temp_inst", PyVal.vnan)] = MeteoField.constant PyVal.vnan
    ∧ MeteoField.constant PyVal.vnan ≠ MeteoField.absent := by
  refine ⟨by decide, by decide⟩

/-- C8 amended: the loader's accessor `CSVInputHandler.get_value` does
normalize empty/NaN cells to `None` (it never returns a NaN value, and
never substitutes zero or an empty string); but the per-field coercion of
`SEBALcode_CSV` retains a NaN source value as a numeric constant instead of
an absent marker. -/
theorem C8_get_value_normalizes_but_extract_keeps_nan :
    (∀ (df : DataFrame) (sheet : String) (letter : Char) (r : Int),
      get_value df sheet letter r ≠ some PyVal.vnan)
    ∧ (∀ record, assocLookupVal record "Temp_inst" = some PyVal.vnan →
        extract_Temp_inst record = MeteoField.constant PyVal.vnan) := by
  constructor
  · intro df sheet letter r h
    unfold get_value at h
    dsimp only at h
    split at h
    · exact Option.noConfusion h
    · split at h
      · split at h
        · split at h
          · split at h
            · exact Option.noConfusion h
            · rename_i hne
              injection h with hv
              exact hne hv
          · exact Option.noConfusion h
        · exact Option.noConfusion h
      · exact Option.noConfusion h
  · intro record h
    unfold extract_Temp_inst dictGet
    rw [h]
    rfl

/-- Witness for C8's amended claim at concrete inputs. -/
theorem C8_witness :
    get_value df1 "General_Input" 'B' 2 ≠ some PyVal.vnan
    ∧ extract_Temp_inst [("Temp_inst", PyVal.vnan)]
        = MeteoField.constant PyVal.vnan :=
  ⟨C8_get_value_normalizes_but_extract_keeps_nan.1 df1 "General_Input" 'B' 2,
   C8_get_value_normalizes_but_extract_keeps_nan.2
     [("Temp_inst", PyVal.vnan)] (by decide)⟩
